import Mathlib

/-!
Shallow embedding of `src/app.py` (photo & audio video synchronizer).

The program has two parts:
* `create_video` (lines 10-38): builds one still-image clip per image path,
  attaches one audio track per `zip`-pair, concatenates, and encodes the
  result to `output_video.mp4` (H.264 / AAC, 24 fps), reporting progress
  through a callback; every exception is wrapped once in
  `"Error creating video: ..."` and re-raised.
* `main` (lines 40-218): the Streamlit request handler.  We embed the
  button-press path (lines 136-218): validation, `os.mkdir('temmp_fold')`,
  saving the uploads as `image_{idx}.jpg` / `audio_{idx}.{mime-subtype}`,
  the call to `create_video`, delivery of the output bytes, and the
  `finally` block that best-effort-removes the output file.

Side effects are made explicit: the filesystem is a value of type `FS`
threaded through the functions, the progress callback is modelled by the
list of values passed to it, the fallibility of the underlying media
operations (moviepy / PIL / OS) is an explicit environment `MediaEnv`
saying which operation raises which message, and `raise` is an `Except`
error value.
-/

namespace AudImgSync

/-- An audio clip as produced by `AudioFileClip(path).set_duration(d)`:
the source path and the presentation duration in seconds. -/
structure AudioClipData where
  path : String
  duration : Nat
deriving DecidableEq, Repr

/-- A still-image video clip as produced by `ImageClip(path)`, possibly
with a duration set and an audio track attached. -/
structure ImageClipData where
  path : String
  duration : Nat
  audioTrack : Option AudioClipData
deriving DecidableEq, Repr

/-- `ImageClip(img_path)` — a fresh clip with no duration and no audio. -/
def ImageClip (path : String) : ImageClipData :=
  { path := path, duration := 0, audioTrack := none }

/-- `clip.set_duration(d)`. -/
def ImageClipData.set_duration (c : ImageClipData) (d : Nat) : ImageClipData :=
  { c with duration := d }

/-- `AudioFileClip(audio_path)` — a fresh audio clip. -/
def AudioFileClip (path : String) : AudioClipData :=
  { path := path, duration := 0 }

/-- `audio.set_duration(d)` on an audio clip. -/
def AudioClipData.set_duration (a : AudioClipData) (d : Nat) : AudioClipData :=
  { a with duration := d }

/-- `clip.set_audio(audio)`. -/
def ImageClipData.set_audio (c : ImageClipData) (a : AudioClipData) : ImageClipData :=
  { c with audioTrack := some a }

/-- The timeline produced by `concatenate_videoclips(image_clips, method="compose")`:
the segments in index order. -/
structure ConcatClip where
  segments : List ImageClipData
deriving DecidableEq, Repr

/-- `concatenate_videoclips` keeps the clips in index order. -/
def concatenate_videoclips (clips : List ImageClipData) (_method : String) : ConcatClip :=
  { segments := clips }

/-- Total presentation duration of a concatenated timeline, in seconds. -/
def ConcatClip.duration (c : ConcatClip) : Nat :=
  (c.segments.map ImageClipData.duration).sum

/-- The encoded video artifact written by
`final_clip.write_videofile(output_path, fps=24, codec='libx264', audio_codec='aac')`:
the timeline plus the encoder parameters that were passed. -/
structure VideoFile where
  clips : List ImageClipData
  fps : Nat
  codec : String
  audioCodec : String
deriving DecidableEq, Repr

/-- Total duration of the encoded video, in seconds. -/
def VideoFile.duration (v : VideoFile) : Nat :=
  (v.clips.map ImageClipData.duration).sum

/-- Contents of a file on disk. -/
inductive FileData where
  /-- An uploaded image re-encoded by `Image.open(img).save(img_path)`;
  the argument is the uploaded bytes it was decoded from. -/
  | jpeg (src : String)
  /-- Raw bytes written with `f.write(...)` (the saved audio uploads). -/
  | raw (b : String)
  /-- An encoded video written by `write_videofile`. -/
  | video (v : VideoFile)
deriving DecidableEq, Repr

/-- The filesystem: the directories that exist and the files (path, data).
Paths are the strings the program builds with `os.path.join`. -/
structure FS where
  dirs : List String
  files : List (String × FileData)
deriving DecidableEq, Repr

/-- `open(path, "wb")` + write: the new entry shadows any older entry for
the same path (`readFile` returns the most recent write). -/
def FS.writeFile (fs : FS) (path : String) (d : FileData) : FS :=
  { fs with files := (path, d) :: fs.files }

/-- `open(path, "rb").read()`: the data at `path`, if the file exists
(the most recent write wins). -/
def FS.readFile (fs : FS) (path : String) : Option FileData :=
  (fs.files.find? (fun pr => pr.1 = path)).map Prod.snd

/-- The empty filesystem. -/
def FS.empty : FS := { dirs := [], files := [] }

/-- `os.remove(path)` with its failure ignored (`try ... except: pass`):
removes the file if it exists, does nothing otherwise. -/
def FS.removeFile (fs : FS) (path : String) : FS :=
  { fs with files := fs.files.filter (fun pr => pr.1 ≠ path) }

/-- Which underlying media operation raises, and with what message:
`none` means the operation succeeds.  `imageErr p` is a failure of
`ImageClip(p)` (unreadable/undecodable image), `audioErr p` of
`AudioFileClip(p)`, and `writeErr p` of `final_clip.write_videofile(p, ...)`
(e.g. disk full). -/
structure MediaEnv where
  imageErr : String → Option String
  audioErr : String → Option String
  writeErr : String → Option String

/-- The environment in which every media operation succeeds. -/
def MediaEnv.ok : MediaEnv :=
  { imageErr := fun _ => none, audioErr := fun _ => none, writeErr := fun _ => none }

/-- An environment in which writing the output file fails ("disk full"). -/
def diskFullEnv : MediaEnv :=
  { imageErr := fun _ => none, audioErr := fun _ => none,
    writeErr := fun _ => some "disk full" }

/-- The media operations `create_video` attempts, in order. -/
inductive MediaOp where
  | mkImage (path : String)
  | mkAudio (path : String)
  | concat (n : Nat)
  | write (path : String)
deriving DecidableEq, Repr

/-- Result of one run of `create_video`: the values passed to
`progress_callback` in order, the media operations attempted in order, the
filesystem after the run, and either the returned output path or the
wrapped exception message. -/
structure CVResult where
  trace : List Nat
  ops : List MediaOp
  fs : FS
  result : Except String String
deriving Repr

/-- First loop of `create_video` (lines 14-18): for each `img_path`,
`clip = ImageClip(img_path).set_duration(duration_per_slide)`, append it,
then `progress_callback(20)`.  Returns the clips built, the callback
values, the operations attempted, and the first exception, if any (the
loop stops there). -/
def imageLoop (env : MediaEnv) (d : Nat) :
    List String → List ImageClipData × List Nat × List MediaOp × Option String
  | [] => ([], [], [], none)
  | p :: ps =>
    match env.imageErr p with
    | some e => ([], [], [MediaOp.mkImage p], some e)
    | none =>
      let rest := imageLoop env d ps
      ((ImageClip p).set_duration d :: rest.1, 20 :: rest.2.1,
        MediaOp.mkImage p :: rest.2.2.1, rest.2.2.2)

/-- Second loop of `create_video` (lines 21-24): for `i, (clip, audio_path)`
in `enumerate(zip(image_clips, audio_paths))`,
`audio = AudioFileClip(audio_path).set_duration(duration_per_slide)`,
`image_clips[i] = clip.set_audio(audio)`, then
`progress_callback(40 + i * 10)`.  Clips beyond the end of `zip` are left
unchanged (Python mutates the list in place). -/
def audioLoop (env : MediaEnv) (d : Nat) (i : Nat) :
    List ImageClipData → List String → List ImageClipData × List Nat × List MediaOp × Option String
  | [], _ => ([], [], [], none)
  | cs, [] => (cs, [], [], none)
  | c :: cs, a :: as =>
    match env.audioErr a with
    | some e => ([], [], [MediaOp.mkAudio a], some e)
    | none =>
      let au := (AudioFileClip a).set_duration d
      let rest := audioLoop env d (i + 1) cs as
      (c.set_audio au :: rest.1, (40 + i * 10) :: rest.2.1,
        MediaOp.mkAudio a :: rest.2.2.1, rest.2.2.2)

/-- The fixed output path (line 31). -/
def output_path_const : String := "output_video.mp4"

/-- The wrapping applied at the top-level `except` (line 38):
`raise Exception(f"Error creating video: {str(e)}")`. -/
def wrapErr (e : String) : String := "Error creating video: " ++ e

/-- `create_video(image_paths, audio_paths, duration_per_slide,
progress_callback)` (lines 10-38).  Every exception from an underlying
media operation propagates to the single top-level `except` and is
re-raised wrapped by `wrapErr`; on success the function writes
`output_video.mp4` and returns that path. -/
def create_video (env : MediaEnv) (fs : FS) (image_paths audio_paths : List String)
    (duration_per_slide : Nat) : CVResult :=
  let r1 := imageLoop env duration_per_slide image_paths
  match r1.2.2.2 with
  | some e => { trace := r1.2.1, ops := r1.2.2.1, fs := fs, result := .error (wrapErr e) }
  | none =>
    let r2 := audioLoop env duration_per_slide 0 r1.1 audio_paths
    match r2.2.2.2 with
    | some e =>
      { trace := r1.2.1 ++ r2.2.1, ops := r1.2.2.1 ++ r2.2.2.1, fs := fs,
        result := .error (wrapErr e) }
    | none =>
      -- `concatenate_videoclips` raises on an empty clip list.
      if r2.1.isEmpty then
        { trace := r1.2.1 ++ r2.2.1,
          ops := r1.2.2.1 ++ r2.2.2.1 ++ [MediaOp.concat 0], fs := fs,
          result := .error (wrapErr "cannot concatenate an empty list of clips") }
      else
        let final_clip := concatenate_videoclips r2.1 "compose"
        match env.writeErr output_path_const with
        | some e =>
          { trace := r1.2.1 ++ r2.2.1 ++ [80],
            ops := r1.2.2.1 ++ r2.2.2.1 ++ [MediaOp.concat r2.1.length, MediaOp.write output_path_const],
            fs := fs, result := .error (wrapErr e) }
        | none =>
          { trace := r1.2.1 ++ r2.2.1 ++ [80, 100],
            ops := r1.2.2.1 ++ r2.2.2.1 ++ [MediaOp.concat r2.1.length, MediaOp.write output_path_const],
            fs := fs.writeFile output_path_const
              (.video { clips := final_clip.segments, fps := 24,
                        codec := "libx264", audioCodec := "aac" }),
            result := .ok output_path_const }

/-- A file received from `st.file_uploader`: its original name, its declared
MIME type (Python `file.type`, e.g. `"image/png"`, `"audio/mp3"`), and its
bytes (`file.getvalue()`). -/
structure UploadedFile where
  name : String
  mime : String
  bytes : String
deriving DecidableEq, Repr

/-- Python `s.split(c)` on the character list: split at every occurrence
of `c`, keeping empty pieces. -/
def splitOnChar (c : Char) : List Char → List (List Char)
  | [] => [[]]
  | x :: xs =>
    let r := splitOnChar c xs
    if x = c then [] :: r
    else
      match r with
      | [] => [[x]]
      | y :: ys => (x :: y) :: ys

/-- `s.split('/')[1]`: the MIME subtype, as used at line 169 to name the
saved audio file. -/
def mimeSubtype (s : String) : String :=
  match splitOnChar '/' s.data with
  | _ :: second :: _ => String.mk second
  | _ => ""

/-- The scratch directory name (lines 152-154). -/
def temp_dir_const : String := "temmp_fold"

/-- `os.path.join(temp_dir, f"image_{idx}.jpg")` (line 164): every image is
saved with a `.jpg` suffix, whatever its original type. -/
def imagePathAt (idx : Nat) : String :=
  temp_dir_const ++ "/image_" ++ toString idx ++ ".jpg"

/-- `os.path.join(temp_dir, f"audio_{idx}.{audio.type.split('/')[1]}")`
(line 169): the audio file is named by its declared MIME subtype. -/
def audioPathAt (idx : Nat) (aud : UploadedFile) : String :=
  temp_dir_const ++ "/audio_" ++ toString idx ++ "." ++ mimeSubtype aud.mime

/-- The save loop (lines 162-172): for each zipped pair, save the image
as `image_{idx}.jpg` (via PIL) and the audio bytes as
`audio_{idx}.{subtype}`, collecting the two path lists. -/
def saveUploads (fs : FS) (idx : Nat) :
    List (UploadedFile × UploadedFile) → FS × List String × List String
  | [] => (fs, [], [])
  | (img, aud) :: rest =>
    let ip := imagePathAt idx
    let ap := audioPathAt idx aud
    let fs1 := (fs.writeFile ip (.jpeg img.bytes)).writeFile ap (.raw aud.bytes)
    let r := saveUploads fs1 (idx + 1) rest
    (r.1, ip :: r.2.1, ap :: r.2.2)

/-- Observable outcome of one press of the "Create Video" button:
the filesystem afterwards, the `st.error` messages in order, the arguments
`create_video` was invoked with (if it was), the values the progress bar
received, the bytes offered through `st.download_button` (if any), and the
message shown by `status_text.error` (if any). -/
structure HandlerResult where
  fs : FS
  errors : List String
  createVideoArgs : Option (List String × List String × Nat)
  progressTrace : List Nat
  delivered : Option FileData
  statusError : Option String
deriving Repr

/-- The message `str(e)` of Python's `FileExistsError` raised by
`os.mkdir('temmp_fold')` when the directory already exists
(quotation marks around the name elided). -/
def mkdirExistsMsg : String := "[Errno 17] File exists: temmp_fold"

/-- The "Create Video" button-press path of `main` (lines 136-218):
validate that both upload lists are non-empty and of equal length,
`os.mkdir('temmp_fold')`, save the uploads, run `create_video`, read the
output file back and offer it for download; any exception lands in the
`except` clause (lines 208-210), and the `finally` clause (lines 212-218)
best-effort-removes the output file when `output_path` was assigned. -/
def main_click (env : MediaEnv) (fs : FS) (uploaded_images uploaded_audio : List UploadedFile)
    (duration : Nat) (_video_quality : String) : HandlerResult :=
  if uploaded_images.isEmpty || uploaded_audio.isEmpty then
    { fs := fs, errors := ["Please upload both images and audio files!"],
      createVideoArgs := none, progressTrace := [], delivered := none, statusError := none }
  else if uploaded_images.length ≠ uploaded_audio.length then
    { fs := fs, errors := ["Number of images must match number of audio files!"],
      createVideoArgs := none, progressTrace := [], delivered := none, statusError := none }
  else if temp_dir_const ∈ fs.dirs then
    -- `os.mkdir` raises FileExistsError before any file is saved;
    -- `output_path` is not in `locals()`, so `finally` removes nothing.
    { fs := fs, errors := ["Please try again with different files or settings."],
      createVideoArgs := none, progressTrace := [], delivered := none,
      statusError := some ("Error: " ++ mkdirExistsMsg) }
  else
    let fs1 : FS := { fs with dirs := fs.dirs ++ [temp_dir_const] }
    let saved := saveUploads fs1 0 (uploaded_images.zip uploaded_audio)
    let cv := create_video env saved.1 saved.2.1 saved.2.2 duration
    match cv.result with
    | .error e =>
      -- `create_video` raised: `output_path` was never assigned, so the
      -- `finally` clause removes nothing.
      { fs := cv.fs, errors := ["Please try again with different files or settings."],
        createVideoArgs := some (saved.2.1, saved.2.2, duration),
        progressTrace := cv.trace, delivered := none,
        statusError := some ("Error: " ++ e) }
    | .ok outPath =>
      match cv.fs.readFile outPath with
      | some dat =>
        -- success banner, download button, then `finally` removes the output
        { fs := cv.fs.removeFile outPath, errors := [],
          createVideoArgs := some (saved.2.1, saved.2.2, duration),
          progressTrace := cv.trace, delivered := some dat, statusError := none }
      | none =>
        -- `open(output_path, "rb")` would raise FileNotFoundError; the
        -- `except` clause reports it and `finally` attempts the removal.
        { fs := cv.fs.removeFile outPath,
          errors := ["Please try again with different files or settings."],
          createVideoArgs := some (saved.2.1, saved.2.2, duration),
          progressTrace := cv.trace, delivered := none,
          statusError := some ("Error: [Errno 2] No such file or directory: " ++ outPath) }

/-! ### Characterization of `create_video` when every media operation succeeds -/

/-- What the audio loop does to the clip list: pair clips with audio paths
positionally, leaving trailing clips (beyond the audio list) untouched. -/
def attachClips (d : Nat) : List ImageClipData → List String → List ImageClipData
  | [], _ => []
  | cs, [] => cs
  | c :: cs, a :: as =>
    c.set_audio { path := a, duration := d } :: attachClips d cs as

/-- The progress values emitted by the audio loop: `40 + i * 10`,
`40 + (i+1) * 10`, ... for `n` steps. -/
def audioTrace : Nat → Nat → List Nat
  | _, 0 => []
  | i, n + 1 => (40 + i * 10) :: audioTrace (i + 1) n

/-- The image paths the save loop produces from index `k` on, for `n`
pairs: `image_k.jpg`, `image_(k+1).jpg`, ... (always `.jpg`). -/
def imagePathsFrom : Nat → Nat → List String
  | _, 0 => []
  | k, n + 1 => imagePathAt k :: imagePathsFrom (k + 1) n

/-- The audio paths the save loop produces from index `k` on:
`audio_k.{subtype of pair k}`, ... -/
def audioPathsFrom : Nat → List (UploadedFile × UploadedFile) → List String
  | _, [] => []
  | k, pr :: rest => audioPathAt k pr.2 :: audioPathsFrom (k + 1) rest

/-- The video `create_video` writes on a fully successful run. -/
def okVideo (ps as : List String) (d : Nat) : VideoFile :=
  { clips := attachClips d (ps.map fun p => { path := p, duration := d, audioTrack := none }) as,
    fps := 24, codec := "libx264", audioCodec := "aac" }

/-- Filesystem and path lists right after the save loop of a request that
passed validation: scratch dir created, all uploads saved. -/
def savedState (fs : FS) (imgs auds : List UploadedFile) :
    FS × List String × List String :=
  saveUploads { fs with dirs := fs.dirs ++ [temp_dir_const] } 0 (imgs.zip auds)

/-- Executable check that a list of naturals is non-decreasing. -/
def nondecr : List Nat → Bool
  | [] => true
  | [_] => true
  | a :: b :: rest => decide (a ≤ b) && nondecr (b :: rest)

/-- Claim C1, stated from the spec's words for a given input: on a run of
the assembly routine in which every media operation succeeds, every value
passed to the progress callback is at most 100 (values are naturals, so
they are integers in `[0,100]` iff they are `≤ 100`), the sequence is
non-decreasing, and the final call passes exactly 100. -/
def C1Prop (fs : FS) (imgs auds : List String) (d : Nat) : Prop :=
  (∀ v ∈ (create_video MediaEnv.ok fs imgs auds d).trace, v ≤ 100) ∧
  List.Chain' (· ≤ ·) (create_video MediaEnv.ok fs imgs auds d).trace ∧
  (create_video MediaEnv.ok fs imgs auds d).trace.getLast? = some 100

/-- Claim C4, stated from the spec's words for a given input: the callback
is called exactly once after image-clip construction (with 20), then once
per audio-attachment step with values between 40 and 80, then once with 80
after concatenation and once with 100 at completion — in particular the
whole trace has exactly `N + 3` entries. -/
def C4Prop (fs : FS) (imgs auds : List String) (d : Nat) : Prop :=
  ∃ mid : List Nat,
    (create_video MediaEnv.ok fs imgs auds d).trace = 20 :: (mid ++ [80, 100]) ∧
    mid.length = imgs.length ∧
    ∀ v ∈ mid, 40 ≤ v ∧ v ≤ 80

/-- The extension of an uploaded file's original name (the part after the
last dot), used to state claim C7. -/
def fileExt (name : String) : String :=
  String.mk ((splitOnChar '.' name.data).getLastD [])

/-- Claim C7, stated from the spec's words for a given request: every
uploaded pair ends up on disk under names built from the positional index
and the file's **original extension** (`image_0.jpg`, `audio_0.mp3`, ...). -/
def C7Prop (fs : FS) (imgs auds : List UploadedFile) (d : Nat) (q : String) : Prop :=
  (∀ i, ∀ h : i < imgs.length,
    (main_click MediaEnv.ok fs imgs auds d q).fs.readFile
      (temp_dir_const ++ "/image_" ++ toString i ++ "." ++ fileExt (imgs.get ⟨i, h⟩).name)
      ≠ none) ∧
  (∀ i, ∀ h : i < auds.length,
    (main_click MediaEnv.ok fs imgs auds d q).fs.readFile
      (temp_dir_const ++ "/audio_" ++ toString i ++ "." ++ fileExt (auds.get ⟨i, h⟩).name)
      ≠ none)

theorem audioTrace_eq_map : ∀ (n i : Nat),
    audioTrace i n = (List.range n).map (fun j => 40 + (i + j) * 10) := by
  intro n
  induction n with
  | zero => intro i; rfl
  | succ n ih =>
    intro i
    rw [List.range_succ_eq_map]
    simp only [audioTrace, List.map_cons, List.map_map, ih (i + 1)]
    congr 1
    apply List.map_congr_left
    intro j _
    simp only [Function.comp_apply]
    omega

theorem attachClips_length (d : Nat) :
    ∀ (cs : List ImageClipData) (as : List String),
      (attachClips d cs as).length = cs.length := by
  intro cs
  induction cs with
  | nil => intro as; cases as <;> rfl
  | cons c cs ih =>
    intro as
    cases as with
    | nil => rfl
    | cons a as => simp [attachClips, ih]

theorem MediaEnv.ok_imageErr (p : String) : MediaEnv.ok.imageErr p = none := rfl

theorem MediaEnv.ok_audioErr (p : String) : MediaEnv.ok.audioErr p = none := rfl

theorem MediaEnv.ok_writeErr (p : String) : MediaEnv.ok.writeErr p = none := rfl

theorem imageLoop_ok (d : Nat) : ∀ ps : List String,
    imageLoop MediaEnv.ok d ps =
      (ps.map (fun p => { path := p, duration := d, audioTrack := none }),
        List.replicate ps.length 20, ps.map MediaOp.mkImage, none) := by
  intro ps
  induction ps with
  | nil => rfl
  | cons p ps ih =>
    simp [imageLoop, MediaEnv.ok_imageErr, ImageClip, ImageClipData.set_duration, ih,
      List.replicate_succ]

theorem audioLoop_ok (d : Nat) :
    ∀ (cs : List ImageClipData) (as : List String) (i : Nat),
      audioLoop MediaEnv.ok d i cs as =
        (attachClips d cs as, audioTrace i (min cs.length as.length),
          (as.take cs.length).map MediaOp.mkAudio, none) := by
  intro cs
  induction cs with
  | nil =>
    intro as i
    cases as <;> rfl
  | cons c cs ih =>
    intro as i
    cases as with
    | nil => rfl
    | cons a as =>
      simp [audioLoop, MediaEnv.ok_audioErr, AudioFileClip, AudioClipData.set_duration, ih,
        Nat.succ_min_succ, audioTrace, attachClips]

theorem create_video_ok (fs : FS) (ps as : List String) (d : Nat) (hne : ps ≠ []) :
    create_video MediaEnv.ok fs ps as d =
      { trace := List.replicate ps.length 20 ++ audioTrace 0 (min ps.length as.length) ++ [80, 100],
        ops := ps.map MediaOp.mkImage ++ (as.take ps.length).map MediaOp.mkAudio ++
          [MediaOp.concat ps.length, MediaOp.write output_path_const],
        fs := fs.writeFile output_path_const
          (.video { clips := attachClips d
                      (ps.map fun p => { path := p, duration := d, audioTrack := none }) as,
                    fps := 24, codec := "libx264", audioCodec := "aac" }),
        result := .ok output_path_const } := by
  have hlen : (attachClips d
      (ps.map fun p => ({ path := p, duration := d, audioTrack := none } : ImageClipData)) as).length
      = ps.length := by
    rw [attachClips_length, List.length_map]
  have hpos : 0 < ps.length := List.length_pos.mpr hne
  have hne' : (attachClips d
      (ps.map fun p => ({ path := p, duration := d, audioTrack := none } : ImageClipData)) as).isEmpty
      = false := by
    cases hcl : attachClips d
        (ps.map fun p => ({ path := p, duration := d, audioTrack := none } : ImageClipData)) as with
    | nil => rw [hcl] at hlen; simp at hlen; omega
    | cons x xs => rfl
  simp only [create_video, imageLoop_ok, audioLoop_ok, List.length_map, hne', hlen]
  simp [MediaEnv.ok_writeErr, concatenate_videoclips]

/-- Attaching audio does not change any clip's presentation duration. -/
theorem attachClips_map_duration (d : Nat) :
    ∀ (cs : List ImageClipData) (as : List String),
      (attachClips d cs as).map ImageClipData.duration = cs.map ImageClipData.duration := by
  intro cs
  induction cs with
  | nil => intro as; cases as <;> rfl
  | cons c cs ih =>
    intro as
    cases as with
    | nil => rfl
    | cons a as => simp [attachClips, ImageClipData.set_audio, ih]

/-- Which clips end up with a soundtrack: exactly the first
`min cs.length as.length` of them, when none had one before. -/
theorem attachClips_map_audioFlag (d : Nat) :
    ∀ (cs : List ImageClipData) (as : List String),
      (∀ c ∈ cs, c.audioTrack = none) →
      (attachClips d cs as).map (fun c => c.audioTrack.isSome) =
        List.replicate (min cs.length as.length) true ++
          List.replicate (cs.length - as.length) false := by
  intro cs
  induction cs with
  | nil => intro as _; cases as <;> simp [attachClips]
  | cons c cs ih =>
    intro as hnone
    cases as with
    | nil =>
      simp only [attachClips, List.length_nil, Nat.min_zero, List.replicate_zero,
        List.nil_append, Nat.sub_zero]
      rw [List.eq_replicate_iff]
      refine ⟨by simp, ?_⟩
      intro b hb
      rw [List.mem_map] at hb
      obtain ⟨x, hx, hxb⟩ := hb
      rw [hnone x hx] at hxb
      simp [← hxb]
    | cons a as =>
      have hnone' : ∀ x ∈ cs, x.audioTrack = none := fun x hx => hnone x (by simp [hx])
      simp [attachClips, ImageClipData.set_audio, ih as hnone', Nat.succ_min_succ,
        List.replicate_succ, Nat.succ_sub_succ]

theorem FS.readFile_writeFile (fs : FS) (p q : String) (v : FileData) :
    (fs.writeFile p v).readFile q = if q = p then some v else fs.readFile q := by
  by_cases h : q = p
  · subst h
    simp [FS.writeFile, FS.readFile, List.find?]
  · simp only [FS.writeFile, FS.readFile, List.find?]
    have : ((p, v).1 = q) = False := by
      simp only [eq_iff_iff, iff_false]
      exact fun hc => h hc.symm
    simp [this, h]

theorem FS.writeFile_dirs (fs : FS) (p : String) (v : FileData) :
    (fs.writeFile p v).dirs = fs.dirs := rfl

theorem FS.removeFile_dirs (fs : FS) (p : String) :
    (fs.removeFile p).dirs = fs.dirs := rfl

/-- Removing a path right after (re-)writing it is the same as never
having written it and just removing the older entries. -/
theorem FS.removeFile_writeFile (fs : FS) (p : String) (v : FileData) :
    (fs.writeFile p v).removeFile p = fs.removeFile p := by
  simp [FS.writeFile, FS.removeFile]

/-- A path the filesystem does not know is unaffected by `removeFile`. -/
theorem FS.removeFile_of_readFile_none (fs : FS) (p : String)
    (h : fs.readFile p = none) : fs.removeFile p = fs := by
  simp only [FS.readFile, Option.map_eq_none', List.find?_eq_none] at h
  simp only [FS.removeFile]
  cases fs with
  | mk dirs files =>
    simp only [FS.mk.injEq, true_and]
    apply List.filter_eq_self.mpr
    intro pr hpr
    simpa using h pr hpr

/-- Scratch image paths live under `temmp_fold/` and are never the output
path. -/
theorem imagePathAt_ne_output (idx : Nat) : imagePathAt idx ≠ output_path_const := by
  intro h
  have h2 := congrArg String.data h
  simp only [imagePathAt, temp_dir_const, output_path_const, String.data_append] at h2
  simp only [List.cons_append, List.cons.injEq] at h2
  exact absurd h2.1 (by decide)

/-- Scratch audio paths live under `temmp_fold/` and are never the output
path. -/
theorem audioPathAt_ne_output (idx : Nat) (aud : UploadedFile) :
    audioPathAt idx aud ≠ output_path_const := by
  intro h
  have h2 := congrArg String.data h
  simp only [audioPathAt, temp_dir_const, output_path_const, String.data_append] at h2
  simp only [List.cons_append, List.cons.injEq] at h2
  exact absurd h2.1 (by decide)

theorem saveUploads_dirs : ∀ (pairs : List (UploadedFile × UploadedFile)) (fs : FS) (k : Nat),
    (saveUploads fs k pairs).1.dirs = fs.dirs := by
  intro pairs
  induction pairs with
  | nil => intro fs k; rfl
  | cons pr rest ih =>
    intro fs k
    simp [saveUploads, ih, FS.writeFile]

theorem saveUploads_imagePaths :
    ∀ (pairs : List (UploadedFile × UploadedFile)) (fs : FS) (k : Nat),
      (saveUploads fs k pairs).2.1 = imagePathsFrom k pairs.length := by
  intro pairs
  induction pairs with
  | nil => intro fs k; rfl
  | cons pr rest ih =>
    intro fs k
    simp [saveUploads, ih, imagePathsFrom]

theorem saveUploads_audioPaths :
    ∀ (pairs : List (UploadedFile × UploadedFile)) (fs : FS) (k : Nat),
      (saveUploads fs k pairs).2.2 = audioPathsFrom k pairs := by
  intro pairs
  induction pairs with
  | nil => intro fs k; rfl
  | cons pr rest ih =>
    intro fs k
    simp [saveUploads, ih, audioPathsFrom]

/-- The save loop never writes the output path. -/
theorem saveUploads_readFile_out :
    ∀ (pairs : List (UploadedFile × UploadedFile)) (fs : FS) (k : Nat),
      (saveUploads fs k pairs).1.readFile output_path_const = fs.readFile output_path_const := by
  intro pairs
  induction pairs with
  | nil => intro fs k; rfl
  | cons pr rest ih =>
    intro fs k
    rw [saveUploads, ih, FS.readFile_writeFile, FS.readFile_writeFile]
    rw [if_neg (fun h => audioPathAt_ne_output k pr.2 h.symm),
      if_neg (fun h => imagePathAt_ne_output k h.symm)]

theorem imagePathsFrom_length : ∀ (n k : Nat), (imagePathsFrom k n).length = n := by
  intro n
  induction n with
  | zero => intro k; rfl
  | succ n ih => intro k; simp [imagePathsFrom, ih]

theorem audioPathsFrom_length :
    ∀ (pairs : List (UploadedFile × UploadedFile)) (k : Nat),
      (audioPathsFrom k pairs).length = pairs.length := by
  intro pairs
  induction pairs with
  | nil => intro k; rfl
  | cons pr rest ih => intro k; simp [audioPathsFrom, ih]

/-- A fully successful button press: validation passes, the scratch
directory is fresh, every media operation succeeds.  The handler saves the
uploads, calls `create_video` on the saved paths, delivers the encoded
video, and removes the output file; the scratch files stay. -/
theorem main_click_ok_eq (fs : FS) (imgs auds : List UploadedFile)
    (d : Nat) (q : String)
    (h1 : imgs ≠ []) (h2 : imgs.length = auds.length) (h3 : temp_dir_const ∉ fs.dirs) :
    main_click MediaEnv.ok fs imgs auds d q =
      { fs := ((savedState fs imgs auds).1.writeFile output_path_const
            (.video (okVideo (savedState fs imgs auds).2.1 (savedState fs imgs auds).2.2 d))).removeFile
            output_path_const,
        errors := [],
        createVideoArgs := some ((savedState fs imgs auds).2.1, (savedState fs imgs auds).2.2, d),
        progressTrace := List.replicate imgs.length 20 ++ audioTrace 0 imgs.length ++ [80, 100],
        delivered := some (.video (okVideo (savedState fs imgs auds).2.1
          (savedState fs imgs auds).2.2 d)),
        statusError := none } := by
  have hpos : 0 < imgs.length := List.length_pos.mpr h1
  have hie : (imgs.isEmpty || auds.isEmpty) = false := by
    cases imgs with
    | nil => exact absurd rfl h1
    | cons x xs =>
      cases auds with
      | nil => simp at h2
      | cons y ys => rfl
  have hcond2 : (imgs.length ≠ auds.length) = False := eq_false (by omega)
  have hpairslen : (imgs.zip auds).length = imgs.length := by
    rw [List.length_zip]; omega
  have hps := saveUploads_imagePaths (imgs.zip auds)
    { fs with dirs := fs.dirs ++ [temp_dir_const] } 0
  have has := saveUploads_audioPaths (imgs.zip auds)
    { fs with dirs := fs.dirs ++ [temp_dir_const] } 0
  have hpslen : (saveUploads { fs with dirs := fs.dirs ++ [temp_dir_const] } 0
      (imgs.zip auds)).2.1.length = imgs.length := by
    rw [hps, imagePathsFrom_length, hpairslen]
  have haslen : (saveUploads { fs with dirs := fs.dirs ++ [temp_dir_const] } 0
      (imgs.zip auds)).2.2.length = imgs.length := by
    rw [has, audioPathsFrom_length, hpairslen]
  have hpsne : (saveUploads { fs with dirs := fs.dirs ++ [temp_dir_const] } 0
      (imgs.zip auds)).2.1 ≠ [] := by
    intro hnil
    rw [hnil] at hpslen
    simp at hpslen
    omega
  have hcv := create_video_ok (saveUploads { fs with dirs := fs.dirs ++ [temp_dir_const] } 0
      (imgs.zip auds)).1
    (saveUploads { fs with dirs := fs.dirs ++ [temp_dir_const] } 0 (imgs.zip auds)).2.1
    (saveUploads { fs with dirs := fs.dirs ++ [temp_dir_const] } 0 (imgs.zip auds)).2.2 d hpsne
  simp only [main_click, hie, Bool.false_eq_true, if_false, hcond2, h3]
  simp only [hcv, FS.readFile_writeFile, if_pos rfl, savedState, okVideo, hpslen, haslen,
    Nat.min_self]
  simp

/-- Searching for a key other than the removed one is unaffected by the
removal filter. -/
theorem find?_filter_ne {α : Type} (p q : String) (h : q ≠ p) (l : List (String × α)) :
    (l.filter (fun pr => pr.1 ≠ p)).find? (fun pr => pr.1 = q) =
      l.find? (fun pr => pr.1 = q) := by
  rw [List.find?_filter]
  congr 1
  funext a
  by_cases hp : a.1 = p
  · have hq : ¬ (a.1 = q) := fun hq => h (by rw [← hq, hp])
    have hpq : ¬ (p = q) := fun hpq => h hpq.symm
    simp [hp, hq, hpq]
  · simp [hp]

/-- Paths untouched by `os.remove` keep their data. -/
theorem FS.readFile_removeFile (fs : FS) (p q : String) (h : q ≠ p) :
    (fs.removeFile p).readFile q = fs.readFile q := by
  simp only [FS.removeFile, FS.readFile]
  rw [find?_filter_ne p q h]

/-- An image scratch path is never an audio scratch path. -/
theorem imagePathAt_ne_audioPathAt (i j : Nat) (aud : UploadedFile) :
    imagePathAt i ≠ audioPathAt j aud := by
  intro h
  have h2 := congrArg String.data h
  simp only [imagePathAt, audioPathAt, temp_dir_const, String.data_append] at h2
  simp only [List.cons_append, List.cons.injEq, List.nil_append] at h2
  obtain ⟨-, -, -, -, -, -, -, -, -, -, -, hia, -⟩ := h2
  exact absurd hia (by decide)

/-- Files already on disk survive the save loop (it only writes). -/
theorem saveUploads_preserves :
    ∀ (pairs : List (UploadedFile × UploadedFile)) (fs : FS) (k : Nat) (p : String),
      fs.readFile p ≠ none → (saveUploads fs k pairs).1.readFile p ≠ none := by
  intro pairs
  induction pairs with
  | nil => intro fs k p h; exact h
  | cons pr rest ih =>
    intro fs k p h
    apply ih
    rw [FS.readFile_writeFile, FS.readFile_writeFile]
    by_cases h1 : p = audioPathAt k pr.2
    · simp [h1]
    · rw [if_neg h1]
      by_cases h2 : p = imagePathAt k
      · simp [h2]
      · rw [if_neg h2]; exact h

/-- Every image path the save loop reports is present on disk afterwards. -/
theorem saveUploads_imageFiles :
    ∀ (pairs : List (UploadedFile × UploadedFile)) (fs : FS) (k : Nat),
      ∀ p ∈ (saveUploads fs k pairs).2.1, (saveUploads fs k pairs).1.readFile p ≠ none := by
  intro pairs
  induction pairs with
  | nil => intro fs k p hp; simp [saveUploads] at hp
  | cons pr rest ih =>
    intro fs k p hp
    simp only [saveUploads, List.mem_cons] at hp ⊢
    rcases hp with hp | hp
    · subst hp
      apply saveUploads_preserves
      rw [FS.readFile_writeFile, if_neg (imagePathAt_ne_audioPathAt k k pr.2),
        FS.readFile_writeFile, if_pos rfl]
      simp
    · exact ih _ _ p hp

/-- Every audio path the save loop reports is present on disk afterwards. -/
theorem saveUploads_audioFiles :
    ∀ (pairs : List (UploadedFile × UploadedFile)) (fs : FS) (k : Nat),
      ∀ p ∈ (saveUploads fs k pairs).2.2, (saveUploads fs k pairs).1.readFile p ≠ none := by
  intro pairs
  induction pairs with
  | nil => intro fs k p hp; simp [saveUploads] at hp
  | cons pr rest ih =>
    intro fs k p hp
    simp only [saveUploads, List.mem_cons] at hp ⊢
    rcases hp with hp | hp
    · subst hp
      apply saveUploads_preserves
      rw [FS.readFile_writeFile, if_pos rfl]
      simp
    · exact ih _ _ p hp

/-- Shape of the image paths: each one is `imagePathAt` of some index. -/
theorem imagePathsFrom_mem : ∀ (n k : Nat), ∀ p ∈ imagePathsFrom k n, ∃ j, p = imagePathAt j := by
  intro n
  induction n with
  | zero => intro k p hp; simp [imagePathsFrom] at hp
  | succ n ih =>
    intro k p hp
    simp only [imagePathsFrom, List.mem_cons] at hp
    rcases hp with hp | hp
    · exact ⟨k, hp⟩
    · exact ih (k + 1) p hp

/-- Shape of the audio paths: each one is `audioPathAt` of some index. -/
theorem audioPathsFrom_mem :
    ∀ (pairs : List (UploadedFile × UploadedFile)) (k : Nat),
      ∀ p ∈ audioPathsFrom k pairs, ∃ j aud, p = audioPathAt j aud := by
  intro pairs
  induction pairs with
  | nil => intro k p hp; simp [audioPathsFrom] at hp
  | cons pr rest ih =>
    intro k p hp
    simp only [audioPathsFrom, List.mem_cons] at hp
    rcases hp with hp | hp
    · exact ⟨k, pr.2, hp⟩
    · exact ih (k + 1) p hp

/-- The image loop only ever attempts `ImageClip` on the given paths, in
order, stopping at the first failure: its op list is a prefix of one
`mkImage` per path. -/
theorem imageLoop_ops_initial (env : MediaEnv) (d : Nat) :
    ∀ ps : List String, (imageLoop env d ps).2.2.1 <+: ps.map MediaOp.mkImage := by
  intro ps
  induction ps with
  | nil => exact List.nil_prefix
  | cons p ps ih =>
    simp only [imageLoop, List.map_cons]
    cases henv : env.imageErr p with
    | some e => exact ⟨ps.map MediaOp.mkImage, rfl⟩
    | none => exact List.cons_prefix_cons.mpr ⟨rfl, ih⟩

/-- If no image operation failed, the image loop behaves exactly as in the
all-successful environment. -/
theorem imageLoop_noerr (env : MediaEnv) (d : Nat) :
    ∀ ps : List String, (imageLoop env d ps).2.2.2 = none →
      imageLoop env d ps = imageLoop MediaEnv.ok d ps := by
  intro ps
  induction ps with
  | nil => intro _; rfl
  | cons p ps ih =>
    intro hnoerr
    cases henv : env.imageErr p with
    | some e => simp only [imageLoop, henv] at hnoerr; exact absurd hnoerr (by simp)
    | none =>
      simp only [imageLoop, henv, MediaEnv.ok_imageErr] at hnoerr ⊢
      rw [ih hnoerr]

/-- The audio loop only ever attempts `AudioFileClip` on the zipped audio
paths, in order, stopping at the first failure. -/
theorem audioLoop_ops_initial (env : MediaEnv) (d : Nat) :
    ∀ (cs : List ImageClipData) (as : List String) (i : Nat),
      (audioLoop env d i cs as).2.2.1 <+: (as.take cs.length).map MediaOp.mkAudio := by
  intro cs
  induction cs with
  | nil =>
    intro as i
    cases as <;> exact List.nil_prefix
  | cons c cs ih =>
    intro as i
    cases as with
    | nil => exact List.nil_prefix
    | cons a as =>
      simp only [audioLoop, List.length_cons, List.take_succ_cons, List.map_cons]
      cases henv : env.audioErr a with
      | some e => exact ⟨(as.take cs.length).map MediaOp.mkAudio, rfl⟩
      | none => exact List.cons_prefix_cons.mpr ⟨rfl, ih as (i + 1)⟩

/-- If no audio operation failed, the audio loop behaves exactly as in the
all-successful environment. -/
theorem audioLoop_noerr (env : MediaEnv) (d : Nat) :
    ∀ (cs : List ImageClipData) (as : List String) (i : Nat),
      (audioLoop env d i cs as).2.2.2 = none →
      audioLoop env d i cs as = audioLoop MediaEnv.ok d i cs as := by
  intro cs
  induction cs with
  | nil =>
    intro as i _
    cases as <;> rfl
  | cons c cs ih =>
    intro as i hnoerr
    cases as with
    | nil => rfl
    | cons a as =>
      cases henv : env.audioErr a with
      | some e => simp only [audioLoop, henv] at hnoerr; exact absurd hnoerr (by simp)
      | none =>
        simp only [audioLoop, henv, MediaEnv.ok_audioErr] at hnoerr ⊢
        rw [ih as (i + 1) hnoerr]

/-- `create_video` on an empty image list: the loops do nothing and
`concatenate_videoclips` raises on the empty clip list, whatever the
environment. -/
theorem create_video_nil (env : MediaEnv) (fs : FS) (as : List String) (d : Nat) :
    create_video env fs [] as d =
      { trace := [], ops := [MediaOp.concat 0], fs := fs,
        result := .error (wrapErr "cannot concatenate an empty list of clips") } := by
  cases as <;> rfl

theorem diskFullEnv_imageErr (p : String) : diskFullEnv.imageErr p = none := rfl

theorem diskFullEnv_audioErr (p : String) : diskFullEnv.audioErr p = none := rfl

theorem diskFullEnv_writeErr (p : String) : diskFullEnv.writeErr p = some "disk full" := rfl

theorem imageLoop_diskFull (d : Nat) : ∀ ps : List String,
    imageLoop diskFullEnv d ps = imageLoop MediaEnv.ok d ps := by
  intro ps
  induction ps with
  | nil => rfl
  | cons p ps ih =>
    simp only [imageLoop, diskFullEnv_imageErr, MediaEnv.ok_imageErr, ih]

theorem audioLoop_diskFull (d : Nat) :
    ∀ (cs : List ImageClipData) (as : List String) (i : Nat),
      audioLoop diskFullEnv d i cs as = audioLoop MediaEnv.ok d i cs as := by
  intro cs
  induction cs with
  | nil => intro as i; cases as <;> rfl
  | cons c cs ih =>
    intro as i
    cases as with
    | nil => rfl
    | cons a as =>
      simp only [audioLoop, diskFullEnv_audioErr, MediaEnv.ok_audioErr, ih]

/-- A run in which everything succeeds except writing the output file:
the routine raises the wrapped "disk full" and leaves the filesystem
untouched. -/
theorem create_video_diskFull (fs : FS) (ps as : List String) (d : Nat) (hne : ps ≠ []) :
    create_video diskFullEnv fs ps as d =
      { trace := List.replicate ps.length 20 ++ audioTrace 0 (min ps.length as.length) ++ [80],
        ops := ps.map MediaOp.mkImage ++ (as.take ps.length).map MediaOp.mkAudio ++
          [MediaOp.concat ps.length, MediaOp.write output_path_const],
        fs := fs, result := .error (wrapErr "disk full") } := by
  have hlen : (attachClips d
      (ps.map fun p => ({ path := p, duration := d, audioTrack := none } : ImageClipData)) as).length
      = ps.length := by
    rw [attachClips_length, List.length_map]
  have hpos : 0 < ps.length := List.length_pos.mpr hne
  have hne' : (attachClips d
      (ps.map fun p => ({ path := p, duration := d, audioTrack := none } : ImageClipData)) as).isEmpty
      = false := by
    cases hcl : attachClips d
        (ps.map fun p => ({ path := p, duration := d, audioTrack := none } : ImageClipData)) as with
    | nil => rw [hcl] at hlen; simp at hlen; omega
    | cons x xs => rfl
  simp only [create_video, imageLoop_diskFull, audioLoop_diskFull, imageLoop_ok, audioLoop_ok,
    List.length_map, hne', hlen]
  simp [diskFullEnv_writeErr]

/-- A valid request during which the encoder fails ("disk full"): the
handler reports the wrapped error, delivers nothing, and the filesystem
keeps the scratch directory and every saved upload (the `finally` clause
removes nothing because `output_path` was never assigned). -/
theorem main_click_diskFull_eq (fs : FS) (imgs auds : List UploadedFile)
    (d : Nat) (q : String)
    (h1 : imgs ≠ []) (h2 : imgs.length = auds.length) (h3 : temp_dir_const ∉ fs.dirs) :
    main_click diskFullEnv fs imgs auds d q =
      { fs := (savedState fs imgs auds).1,
        errors := ["Please try again with different files or settings."],
        createVideoArgs := some ((savedState fs imgs auds).2.1, (savedState fs imgs auds).2.2, d),
        progressTrace := List.replicate imgs.length 20 ++ audioTrace 0 imgs.length ++ [80],
        delivered := none,
        statusError := some ("Error: " ++ wrapErr "disk full") } := by
  have hpos : 0 < imgs.length := List.length_pos.mpr h1
  have hie : (imgs.isEmpty || auds.isEmpty) = false := by
    cases imgs with
    | nil => exact absurd rfl h1
    | cons x xs =>
      cases auds with
      | nil => simp at h2
      | cons y ys => rfl
  have hcond2 : (imgs.length ≠ auds.length) = False := eq_false (by omega)
  have hpairslen : (imgs.zip auds).length = imgs.length := by
    rw [List.length_zip]; omega
  have hps := saveUploads_imagePaths (imgs.zip auds)
    { fs with dirs := fs.dirs ++ [temp_dir_const] } 0
  have has := saveUploads_audioPaths (imgs.zip auds)
    { fs with dirs := fs.dirs ++ [temp_dir_const] } 0
  have hpslen : (saveUploads { fs with dirs := fs.dirs ++ [temp_dir_const] } 0
      (imgs.zip auds)).2.1.length = imgs.length := by
    rw [hps, imagePathsFrom_length, hpairslen]
  have haslen : (saveUploads { fs with dirs := fs.dirs ++ [temp_dir_const] } 0
      (imgs.zip auds)).2.2.length = imgs.length := by
    rw [has, audioPathsFrom_length, hpairslen]
  have hpsne : (saveUploads { fs with dirs := fs.dirs ++ [temp_dir_const] } 0
      (imgs.zip auds)).2.1 ≠ [] := by
    intro hnil
    rw [hnil] at hpslen
    simp at hpslen
    omega
  have hcv := create_video_diskFull (saveUploads { fs with dirs := fs.dirs ++ [temp_dir_const] } 0
      (imgs.zip auds)).1
    (saveUploads { fs with dirs := fs.dirs ++ [temp_dir_const] } 0 (imgs.zip auds)).2.1
    (saveUploads { fs with dirs := fs.dirs ++ [temp_dir_const] } 0 (imgs.zip auds)).2.2 d hpsne
  simp only [main_click, hie, Bool.false_eq_true, if_false, hcond2, h3]
  simp only [hcv, savedState, hpslen, haslen, Nat.min_self]

theorem okVideo_clips_length (imgs auds : List String) (d : Nat) :
    (okVideo imgs auds d).clips.length = imgs.length := by
  simp [okVideo, attachClips_length]

theorem okVideo_clips_duration (imgs auds : List String) (d : Nat) :
    (okVideo imgs auds d).clips.map ImageClipData.duration = List.replicate imgs.length d := by
  simp only [okVideo]
  rw [attachClips_map_duration, List.map_map]
  have : (ImageClipData.duration ∘ fun p =>
      ({ path := p, duration := d, audioTrack := none } : ImageClipData)) = fun _ => d := by
    funext p
    rfl
  rw [this, List.map_const']

theorem okVideo_duration (imgs auds : List String) (d : Nat) :
    (okVideo imgs auds d).duration = imgs.length * d := by
  rw [VideoFile.duration, okVideo_clips_duration, List.sum_replicate, smul_eq_mul]

/-- `nondecr` computes exactly `Chain' (· ≤ ·)`. -/
theorem chain'_iff_nondecr : ∀ l : List Nat, List.Chain' (· ≤ ·) l ↔ nondecr l = true := by
  intro l
  induction l with
  | nil => simp [nondecr]
  | cons a l ih =>
    cases l with
    | nil => simp [nondecr]
    | cons b m =>
      rw [List.chain'_cons, nondecr]
      simp [ih]

/-! ### The claims -/

/-- C1 counterexample: with 8 input pairs every media operation succeeds,
yet the audio loop passes `40 + 7*10 = 110 > 100` to the progress
callback, and the later value 80 (after concatenation) makes the sequence
decrease — the claim as stated is false. -/
theorem C1_cex : ¬ C1Prop FS.empty ["i0", "i1", "i2", "i3", "i4", "i5", "i6", "i7"]
    ["a0", "a1", "a2", "a3", "a4", "a5", "a6", "a7"] 5 := by
  intro h
  obtain ⟨hbound, -, -⟩ := h
  exact absurd (hbound 110 (by decide)) (by decide)

/-- C1 (amended): on a successful run of `create_video`, for equal-length
non-empty inputs **with at most 5 pairs** and any positive duration, every
value passed to the progress callback is in `[0,100]`, the sequence is
non-decreasing, and the final value is exactly 100.  (For 6 or 7 pairs the
sequence is not monotone, and from 8 pairs on it leaves `[0,100]`.) -/
theorem C1_amended (fs : FS) (imgs auds : List String) (d : Nat)
    (hlen : imgs.length = auds.length) (hne : imgs ≠ [])
    (hfive : imgs.length ≤ 5) (hd : 0 < d) :
    C1Prop fs imgs auds d := by
  have hpos : 0 < imgs.length := List.length_pos.mpr hne
  have hmin : min imgs.length auds.length = imgs.length := by omega
  unfold C1Prop
  rw [create_video_ok fs imgs auds d hne]
  dsimp only
  rw [hmin]
  obtain ⟨n, hn⟩ : ∃ n, imgs.length = n := ⟨_, rfl⟩
  rw [hn] at hpos hfive ⊢
  simp only [chain'_iff_nondecr]
  interval_cases n <;> decide

/-- Witness for C1 (amended): a concrete 2-pair run. -/
theorem C1_witness :
    ["i0", "i1"].length = ["a0", "a1"].length ∧ (["i0", "i1"] : List String) ≠ [] ∧
      ["i0", "i1"].length ≤ 5 ∧ 0 < 5 ∧ C1Prop FS.empty ["i0", "i1"] ["a0", "a1"] 5 :=
  ⟨rfl, by decide, by decide, by decide,
    C1_amended FS.empty ["i0", "i1"] ["a0", "a1"] 5 rfl (by decide) (by decide) (by decide)⟩

/-- C2: for equal-length non-empty inputs and positive duration, the
successful run writes a video whose segment count equals the number of
input pairs, every segment's presentation length is the given duration,
and the total duration is `count × duration` seconds. -/
theorem C2_thm (fs : FS) (imgs auds : List String) (d : Nat)
    (hlen : imgs.length = auds.length) (hne : imgs ≠ []) (hd : 0 < d) :
    ∃ v : VideoFile,
      (create_video MediaEnv.ok fs imgs auds d).result = .ok output_path_const ∧
      (create_video MediaEnv.ok fs imgs auds d).fs.readFile output_path_const =
        some (.video v) ∧
      v.clips.length = imgs.length ∧
      (∀ c ∈ v.clips, c.duration = d) ∧
      v.duration = imgs.length * d := by
  refine ⟨okVideo imgs auds d, ?_, ?_, okVideo_clips_length imgs auds d, ?_, okVideo_duration imgs auds d⟩
  · rw [create_video_ok fs imgs auds d hne]
  · rw [create_video_ok fs imgs auds d hne]
    dsimp only
    rw [FS.readFile_writeFile, if_pos rfl]
    rfl
  · intro c hc
    have hmem : c.duration ∈ (okVideo imgs auds d).clips.map ImageClipData.duration :=
      List.mem_map_of_mem _ hc
    rw [okVideo_clips_duration] at hmem
    exact List.eq_of_mem_replicate hmem

/-- Witness for C2: a concrete 3-pair run with duration 5 (15 s total). -/
theorem C2_witness :
    ["i0", "i1", "i2"].length = ["a0", "a1", "a2"].length ∧
      (["i0", "i1", "i2"] : List String) ≠ [] ∧ 0 < 5 ∧
      ∃ v : VideoFile,
        (create_video MediaEnv.ok FS.empty ["i0", "i1", "i2"] ["a0", "a1", "a2"] 5).result =
          .ok output_path_const ∧
        (create_video MediaEnv.ok FS.empty ["i0", "i1", "i2"] ["a0", "a1", "a2"] 5).fs.readFile
          output_path_const = some (.video v) ∧
        v.clips.length = ["i0", "i1", "i2"].length ∧
        (∀ c ∈ v.clips, c.duration = 5) ∧
        v.duration = ["i0", "i1", "i2"].length * 5 :=
  ⟨rfl, by decide, by decide,
    C2_thm FS.empty ["i0", "i1", "i2"] ["a0", "a1", "a2"] 5 rfl (by decide) (by decide)⟩

/-- C3: when either upload list is empty or the lengths differ, the
handler shows the corresponding form-level error and returns before
creating the scratch directory, writing any file, calling `create_video`,
or producing any output artifact (the filesystem is exactly as before). -/
theorem C3_thm (env : MediaEnv) (fs : FS) (imgs auds : List UploadedFile) (d : Nat) (q : String)
    (h : imgs = [] ∨ auds = [] ∨ imgs.length ≠ auds.length) :
    (main_click env fs imgs auds d q).createVideoArgs = none ∧
    (main_click env fs imgs auds d q).fs = fs ∧
    (main_click env fs imgs auds d q).delivered = none ∧
    ((main_click env fs imgs auds d q).errors = ["Please upload both images and audio files!"] ∨
      (main_click env fs imgs auds d q).errors =
        ["Number of images must match number of audio files!"]) := by
  by_cases he : (imgs.isEmpty || auds.isEmpty) = true
  · simp only [main_click, he, if_true]
    exact ⟨trivial, trivial, trivial, Or.inl trivial⟩
  · have hne : imgs.length ≠ auds.length := by
      rcases h with h | h | h
      · subst h; simp at he
      · subst h; simp at he
      · exact h
    simp only [main_click]
    rw [if_neg he, if_pos hne]
    exact ⟨rfl, rfl, rfl, Or.inr rfl⟩

/-- Witness for C3: one image upload and no audio upload is rejected with
the form-level error and no side effect. -/
theorem C3_witness :
    (([{ name := "pic.jpg", mime := "image/jpeg", bytes := "B" }] : List UploadedFile) = [] ∨
      ([] : List UploadedFile) = [] ∨
      ([{ name := "pic.jpg", mime := "image/jpeg", bytes := "B" }] : List UploadedFile).length ≠
        ([] : List UploadedFile).length) ∧
    (main_click MediaEnv.ok FS.empty
        [{ name := "pic.jpg", mime := "image/jpeg", bytes := "B" }] [] 5 "Medium").createVideoArgs
      = none ∧
    (main_click MediaEnv.ok FS.empty
        [{ name := "pic.jpg", mime := "image/jpeg", bytes := "B" }] [] 5 "Medium").fs = FS.empty ∧
    (main_click MediaEnv.ok FS.empty
        [{ name := "pic.jpg", mime := "image/jpeg", bytes := "B" }] [] 5 "Medium").delivered
      = none :=
  ⟨Or.inr (Or.inl rfl),
    (C3_thm MediaEnv.ok FS.empty [{ name := "pic.jpg", mime := "image/jpeg", bytes := "B" }] []
      5 "Medium" (Or.inr (Or.inl rfl))).1,
    (C3_thm MediaEnv.ok FS.empty [{ name := "pic.jpg", mime := "image/jpeg", bytes := "B" }] []
      5 "Medium" (Or.inr (Or.inl rfl))).2.1,
    (C3_thm MediaEnv.ok FS.empty [{ name := "pic.jpg", mime := "image/jpeg", bytes := "B" }] []
      5 "Medium" (Or.inr (Or.inl rfl))).2.2.1⟩

/-- C4 counterexample: with 2 pairs the callback is called twice with 20
(once per image, inside the loop), not exactly once after image-clip
construction, so the trace has `2N + 2 = 6` entries instead of the claimed
`N + 3 = 5`. -/
theorem C4_cex : ¬ C4Prop FS.empty ["i0", "i1"] ["a0", "a1"] 5 := by
  intro h
  obtain ⟨mid, hEq, hLen, -⟩ := h
  have hT : (create_video MediaEnv.ok FS.empty ["i0", "i1"] ["a0", "a1"] 5).trace
      = [20, 20, 40, 50, 80, 100] := by decide
  rw [hT] at hEq
  have hlen6 := congrArg List.length hEq
  simp at hlen6 hLen
  omega

/-- C4 (amended): the callback is called once **per image** with 20 during
image-clip construction (`N` times), then once per audio-attachment step
with `40 + 10·i` (values that exceed 80 from the sixth pair on, rather
than being interpolated between 40 and 80), then once with 80 after
concatenation and once with 100 at completion. -/
theorem C4_amended (fs : FS) (imgs auds : List String) (d : Nat)
    (hlen : imgs.length = auds.length) (hne : imgs ≠ []) :
    (create_video MediaEnv.ok fs imgs auds d).trace =
      List.replicate imgs.length 20 ++
        (List.range imgs.length).map (fun i => 40 + i * 10) ++ [80, 100] := by
  have hmin : min imgs.length auds.length = imgs.length := by omega
  rw [create_video_ok fs imgs auds d hne]
  dsimp only
  rw [hmin, audioTrace_eq_map]
  simp

/-- Witness for C4 (amended): the concrete 2-pair trace. -/
theorem C4_witness :
    ["i0", "i1"].length = ["a0", "a1"].length ∧ (["i0", "i1"] : List String) ≠ [] ∧
    (create_video MediaEnv.ok FS.empty ["i0", "i1"] ["a0", "a1"] 5).trace =
      List.replicate 2 20 ++ (List.range 2).map (fun i => 40 + i * 10) ++ [80, 100] :=
  ⟨rfl, by decide, C4_amended FS.empty ["i0", "i1"] ["a0", "a1"] 5 rfl (by decide)⟩

/-- C5: whatever media operations fail, `create_video` either returns the
output path or raises the underlying message wrapped exactly once in
`"Error creating video: ..."`; on failure the filesystem is untouched (no
partial output), and the sequence of media operations it attempted is a
prefix of the all-successful run's sequence (no operation is retried and
nothing runs after the failure). -/
theorem C5_thm (env : MediaEnv) (fs : FS) (imgs auds : List String) (d : Nat) :
    ((create_video env fs imgs auds d).result = .ok output_path_const ∨
      ∃ m, (create_video env fs imgs auds d).result = .error (wrapErr m)) ∧
    (∀ m, (create_video env fs imgs auds d).result = .error m →
      (create_video env fs imgs auds d).fs = fs) ∧
    (create_video env fs imgs auds d).ops <+: (create_video MediaEnv.ok fs imgs auds d).ops := by
  cases imgs with
  | nil =>
    rw [create_video_nil env fs auds d, create_video_nil MediaEnv.ok fs auds d]
    exact ⟨Or.inr ⟨_, rfl⟩, fun m _ => rfl, List.prefix_refl _⟩
  | cons p ps =>
    have hne : (p :: ps : List String) ≠ [] := by simp
    have hokops : (create_video MediaEnv.ok fs (p :: ps) auds d).ops =
        (p :: ps).map MediaOp.mkImage ++ (auds.take (p :: ps).length).map MediaOp.mkAudio ++
          [MediaOp.concat (p :: ps).length, MediaOp.write output_path_const] := by
      rw [create_video_ok fs (p :: ps) auds d hne]
    rw [hokops]
    simp only [create_video]
    cases h1 : (imageLoop env d (p :: ps)).2.2.2 with
    | some e =>
      dsimp only
      refine ⟨Or.inr ⟨e, rfl⟩, fun m _ => rfl, ?_⟩
      rw [List.append_assoc]
      exact (imageLoop_ops_initial env d (p :: ps)).trans (List.prefix_append _ _)
    | none =>
      rw [imageLoop_noerr env d (p :: ps) h1, imageLoop_ok]
      dsimp only
      cases h2 : (audioLoop env d 0
          ((p :: ps).map fun p => { path := p, duration := d, audioTrack := none }) auds).2.2.2 with
      | some e =>
        dsimp only
        refine ⟨Or.inr ⟨e, rfl⟩, fun m _ => rfl, ?_⟩
        obtain ⟨t, ht⟩ := audioLoop_ops_initial env d
          ((p :: ps).map fun p => { path := p, duration := d, audioTrack := none }) auds 0
        rw [List.length_map] at ht
        refine ⟨t ++ [MediaOp.concat (p :: ps).length, MediaOp.write output_path_const], ?_⟩
        rw [← ht]
        simp [List.append_assoc]
      | none =>
        rw [audioLoop_noerr env d _ auds 0 h2, audioLoop_ok]
        dsimp only
        have hlen : (attachClips d
            ((p :: ps).map fun p =>
              ({ path := p, duration := d, audioTrack := none } : ImageClipData)) auds).length
            = (p :: ps).length := by
          rw [attachClips_length, List.length_map]
        have hneClips : (attachClips d
            ((p :: ps).map fun p =>
              ({ path := p, duration := d, audioTrack := none } : ImageClipData)) auds).isEmpty
            = false := by
          cases hcl : attachClips d
              ((p :: ps).map fun p =>
                ({ path := p, duration := d, audioTrack := none } : ImageClipData)) auds with
          | nil => rw [hcl] at hlen; simp at hlen
          | cons x xs => rfl
        rw [hneClips]
        simp only [Bool.false_eq_true, if_false]
        cases h3 : env.writeErr output_path_const with
        | some e =>
          refine ⟨Or.inr ⟨e, rfl⟩, fun m _ => rfl, ?_⟩
          rw [hlen, List.length_map]
        | none =>
          refine ⟨Or.inl rfl, fun m hm => absurd hm (by simp), ?_⟩
          rw [hlen, List.length_map]

/-- Witness for C5: an environment in which writing the output fails with
"disk full" — the routine raises the wrapped message, leaves the
filesystem untouched, and its operation sequence is a prefix of the
successful one. -/
theorem C5_witness :
    (((create_video diskFullEnv FS.empty ["i0"] ["a0"] 5).result = .ok output_path_const ∨
      ∃ m, (create_video diskFullEnv FS.empty ["i0"] ["a0"] 5).result = .error (wrapErr m)) ∧
    (∀ m, (create_video diskFullEnv FS.empty ["i0"] ["a0"] 5).result = .error m →
      (create_video diskFullEnv FS.empty ["i0"] ["a0"] 5).fs = FS.empty) ∧
    (create_video diskFullEnv FS.empty ["i0"] ["a0"] 5).ops <+:
      (create_video MediaEnv.ok FS.empty ["i0"] ["a0"] 5).ops) ∧
    (create_video diskFullEnv FS.empty ["i0"] ["a0"] 5).result =
      .error "Error creating video: disk full" :=
  ⟨C5_thm diskFullEnv FS.empty ["i0"] ["a0"] 5, rfl⟩

/-- C6: on a fully successful request, the output file is read back for
delivery, then removed (its deletion is attempted in the `finally` clause
with failures ignored), so it no longer exists afterwards; the scratch
directory and every saved `image_i` / `audio_i` input file remain on disk
(the final filesystem is exactly the post-save one).  On a failing run
(encoder failure after saving), nothing is delivered and the scratch
input files equally remain behind. -/
theorem C6_thm (fs : FS) (imgs auds : List UploadedFile) (d : Nat) (q : String)
    (h1 : imgs ≠ []) (h2 : imgs.length = auds.length) (h3 : temp_dir_const ∉ fs.dirs)
    (h4 : fs.readFile output_path_const = none) :
    (main_click MediaEnv.ok fs imgs auds d q).statusError = none ∧
    (∃ v : VideoFile, (main_click MediaEnv.ok fs imgs auds d q).delivered = some (.video v)) ∧
    (main_click MediaEnv.ok fs imgs auds d q).fs.readFile output_path_const = none ∧
    (main_click MediaEnv.ok fs imgs auds d q).fs = (savedState fs imgs auds).1 ∧
    (main_click MediaEnv.ok fs imgs auds d q).fs.dirs = fs.dirs ++ [temp_dir_const] ∧
    (main_click diskFullEnv fs imgs auds d q).delivered = none ∧
    (main_click diskFullEnv fs imgs auds d q).fs = (savedState fs imgs auds).1 := by
  have hsaved : (savedState fs imgs auds).1.readFile output_path_const = none := by
    rw [savedState, saveUploads_readFile_out]
    exact h4
  rw [main_click_ok_eq fs imgs auds d q h1 h2 h3,
    main_click_diskFull_eq fs imgs auds d q h1 h2 h3]
  dsimp only
  rw [FS.removeFile_writeFile, FS.removeFile_of_readFile_none _ _ hsaved]
  refine ⟨rfl, ⟨_, rfl⟩, hsaved, rfl, ?_, rfl, rfl⟩
  rw [savedState, saveUploads_dirs]

/-- Witness for C6: a concrete one-pair request on an empty filesystem. -/
theorem C6_witness :
    (([{ name := "pic.jpg", mime := "image/jpeg", bytes := "IMG" }] : List UploadedFile) ≠ [] ∧
      temp_dir_const ∉ FS.empty.dirs ∧ FS.empty.readFile output_path_const = none) ∧
    (main_click MediaEnv.ok FS.empty [{ name := "pic.jpg", mime := "image/jpeg", bytes := "IMG" }]
        [{ name := "song.mp3", mime := "audio/mp3", bytes := "AUD" }] 5 "Medium").statusError
      = none ∧
    (main_click MediaEnv.ok FS.empty [{ name := "pic.jpg", mime := "image/jpeg", bytes := "IMG" }]
        [{ name := "song.mp3", mime := "audio/mp3", bytes := "AUD" }] 5 "Medium").fs.readFile
      output_path_const = none :=
  ⟨⟨by decide, by decide, rfl⟩,
    (C6_thm FS.empty [{ name := "pic.jpg", mime := "image/jpeg", bytes := "IMG" }]
      [{ name := "song.mp3", mime := "audio/mp3", bytes := "AUD" }] 5 "Medium"
      (by decide) rfl (by decide) rfl).1,
    (C6_thm FS.empty [{ name := "pic.jpg", mime := "image/jpeg", bytes := "IMG" }]
      [{ name := "song.mp3", mime := "audio/mp3", bytes := "AUD" }] 5 "Medium"
      (by decide) rfl (by decide) rfl).2.2.1⟩

/-- C7 counterexample: a PNG upload is saved as `image_0.jpg` (line 164
hard-codes the `.jpg` suffix), not under its original `.png` extension, so
the claim fails for the accepted type `png`. -/
theorem C7_cex :
    ¬ C7Prop FS.empty [{ name := "pic.png", mime := "image/png", bytes := "PNGBYTES" }]
      [{ name := "song.mp3", mime := "audio/mp3", bytes := "MP3BYTES" }] 5 "Medium" := by
  intro h
  exact h.1 0 (by decide) (by decide)

/-- C7 (amended): the files saved for the uploaded pairs — and handed to
`create_video` — are named by positional index, with every image saved as
`image_i.jpg` regardless of its original extension, and every audio file
saved as `audio_i.<subtype>` where `<subtype>` is the declared MIME
subtype of the upload (not its original name's extension); all those files
exist on disk after the request. -/
theorem C7_amended (fs : FS) (imgs auds : List UploadedFile) (d : Nat) (q : String)
    (h1 : imgs ≠ []) (h2 : imgs.length = auds.length) (h3 : temp_dir_const ∉ fs.dirs) :
    (main_click MediaEnv.ok fs imgs auds d q).createVideoArgs =
      some (imagePathsFrom 0 imgs.length, audioPathsFrom 0 (imgs.zip auds), d) ∧
    (∀ p ∈ imagePathsFrom 0 imgs.length,
      (main_click MediaEnv.ok fs imgs auds d q).fs.readFile p ≠ none) ∧
    (∀ p ∈ audioPathsFrom 0 (imgs.zip auds),
      (main_click MediaEnv.ok fs imgs auds d q).fs.readFile p ≠ none) := by
  have hzlen : (imgs.zip auds).length = imgs.length := by
    rw [List.length_zip]; omega
  rw [main_click_ok_eq fs imgs auds d q h1 h2 h3]
  dsimp only
  refine ⟨?_, ?_, ?_⟩
  · rw [savedState, saveUploads_imagePaths, saveUploads_audioPaths, hzlen]
  · intro p hp
    obtain ⟨j, hj⟩ := imagePathsFrom_mem imgs.length 0 p hp
    rw [FS.removeFile_writeFile,
      FS.readFile_removeFile _ _ _ (by rw [hj]; exact imagePathAt_ne_output j)]
    apply saveUploads_imageFiles
    rw [saveUploads_imagePaths, hzlen]
    exact hp
  · intro p hp
    obtain ⟨j, aud, hj⟩ := audioPathsFrom_mem (imgs.zip auds) 0 p hp
    rw [FS.removeFile_writeFile,
      FS.readFile_removeFile _ _ _ (by rw [hj]; exact audioPathAt_ne_output j aud)]
    apply saveUploads_audioFiles
    rw [saveUploads_audioPaths]
    exact hp

/-- Witness for C7 (amended): a one-pair request with a `.png` image —
the handler passes `create_video` the saved paths `imagePathsFrom 0 1`
(i.e. `temmp_fold/image_0.jpg`) and the MIME-subtype audio path. -/
theorem C7_witness :
    (([{ name := "pic.png", mime := "image/png", bytes := "PNGBYTES" }] : List UploadedFile) ≠ [] ∧
      temp_dir_const ∉ FS.empty.dirs) ∧
    (main_click MediaEnv.ok FS.empty [{ name := "pic.png", mime := "image/png", bytes := "PNGBYTES" }]
        [{ name := "song.mp3", mime := "audio/mp3", bytes := "MP3BYTES" }] 5
        "Medium").createVideoArgs =
      some (imagePathsFrom 0 1,
        audioPathsFrom 0
          ([{ name := "pic.png", mime := "image/png", bytes := "PNGBYTES" }].zip
            [{ name := "song.mp3", mime := "audio/mp3", bytes := "MP3BYTES" }]), 5) :=
  ⟨⟨by decide, by decide⟩,
    (C7_amended FS.empty [{ name := "pic.png", mime := "image/png", bytes := "PNGBYTES" }]
      [{ name := "song.mp3", mime := "audio/mp3", bytes := "MP3BYTES" }] 5 "Medium"
      (by decide) rfl (by decide)).1⟩

/-- C8: the quality selector has no influence whatsoever — two requests
differing only in the quality value produce literally the same outcome
(`video_quality` is never read after being collected), and the delivered
video of a successful run always carries the fixed encoder parameters
24 fps, H.264 (`libx264`) video and AAC audio, in the MP4 output file. -/
theorem C8_thm (env : MediaEnv) (fs : FS) (imgs auds : List UploadedFile) (d : Nat)
    (q1 q2 : String) :
    main_click env fs imgs auds d q1 = main_click env fs imgs auds d q2 ∧
    (imgs ≠ [] → imgs.length = auds.length → temp_dir_const ∉ fs.dirs →
      ∃ v : VideoFile,
        (main_click MediaEnv.ok fs imgs auds d q1).delivered = some (.video v) ∧
        v.fps = 24 ∧ v.codec = "libx264" ∧ v.audioCodec = "aac") := by
  refine ⟨rfl, fun h1 h2 h3 => ?_⟩
  rw [main_click_ok_eq fs imgs auds d q1 h1 h2 h3]
  exact ⟨_, rfl, rfl, rfl, rfl⟩

/-- Witness for C8: Low vs High on a concrete request. -/
theorem C8_witness :
    main_click MediaEnv.ok FS.empty
        [{ name := "pic.jpg", mime := "image/jpeg", bytes := "IMG" }]
        [{ name := "song.mp3", mime := "audio/mp3", bytes := "AUD" }] 5 "Low" =
      main_click MediaEnv.ok FS.empty
        [{ name := "pic.jpg", mime := "image/jpeg", bytes := "IMG" }]
        [{ name := "song.mp3", mime := "audio/mp3", bytes := "AUD" }] 5 "High" ∧
    ∃ v : VideoFile,
      (main_click MediaEnv.ok FS.empty
          [{ name := "pic.jpg", mime := "image/jpeg", bytes := "IMG" }]
          [{ name := "song.mp3", mime := "audio/mp3", bytes := "AUD" }] 5 "Low").delivered
        = some (.video v) ∧
      v.fps = 24 ∧ v.codec = "libx264" ∧ v.audioCodec = "aac" :=
  ⟨(C8_thm MediaEnv.ok FS.empty [{ name := "pic.jpg", mime := "image/jpeg", bytes := "IMG" }]
      [{ name := "song.mp3", mime := "audio/mp3", bytes := "AUD" }] 5 "Low" "High").1,
    (C8_thm MediaEnv.ok FS.empty [{ name := "pic.jpg", mime := "image/jpeg", bytes := "IMG" }]
      [{ name := "song.mp3", mime := "audio/mp3", bytes := "AUD" }] 5 "Low" "High").2
      (by decide) rfl (by decide)⟩

/-- C9: the scratch directory is a plain `os.mkdir` of the fixed name
`temmp_fold` and is never removed; if it already exists when a valid
request arrives, `mkdir` raises `FileExistsError`, the request fails with
the generic error message before any upload is saved (the filesystem is
unchanged), `create_video` is never invoked, and no output is produced. -/
theorem C9_thm (env : MediaEnv) (fs : FS) (imgs auds : List UploadedFile) (d : Nat) (q : String)
    (h1 : imgs ≠ []) (h2 : auds ≠ []) (h3 : imgs.length = auds.length)
    (h4 : temp_dir_const ∈ fs.dirs) :
    main_click env fs imgs auds d q =
      { fs := fs, errors := ["Please try again with different files or settings."],
        createVideoArgs := none, progressTrace := [], delivered := none,
        statusError := some ("Error: " ++ mkdirExistsMsg) } := by
  have hie : (imgs.isEmpty || auds.isEmpty) = false := by
    cases imgs with
    | nil => exact absurd rfl h1
    | cons x xs =>
      cases auds with
      | nil => exact absurd rfl h2
      | cons y ys => rfl
  have hlen : ¬ (imgs.length ≠ auds.length) := by omega
  simp only [main_click]
  rw [if_neg (by rw [hie]; exact Bool.false_ne_true), if_neg hlen, if_pos h4]

/-- Witness for C9: a valid request arriving while `temmp_fold` already
exists fails with the generic message and leaves the filesystem as is. -/
theorem C9_witness :
    (([{ name := "pic.jpg", mime := "image/jpeg", bytes := "IMG" }] : List UploadedFile) ≠ [] ∧
      temp_dir_const ∈ ({ dirs := ["temmp_fold"], files := [] } : FS).dirs) ∧
    main_click MediaEnv.ok { dirs := ["temmp_fold"], files := [] }
        [{ name := "pic.jpg", mime := "image/jpeg", bytes := "IMG" }]
        [{ name := "song.mp3", mime := "audio/mp3", bytes := "AUD" }] 5 "Medium" =
      { fs := { dirs := ["temmp_fold"], files := [] },
        errors := ["Please try again with different files or settings."],
        createVideoArgs := none, progressTrace := [], delivered := none,
        statusError := some ("Error: " ++ mkdirExistsMsg) } :=
  ⟨⟨by decide, by decide⟩,
    C9_thm MediaEnv.ok { dirs := ["temmp_fold"], files := [] }
      [{ name := "pic.jpg", mime := "image/jpeg", bytes := "IMG" }]
      [{ name := "song.mp3", mime := "audio/mp3", bytes := "AUD" }] 5 "Medium"
      (by decide) (by decide) rfl (by decide)⟩

/-- C10: called directly with more images than audio clips, `create_video`
does not raise: the zip pairs audio with the first `min` clips only, all
image clips are concatenated, the total duration is `N_images × duration`,
and exactly the first `N_audio` segments carry a soundtrack. -/
theorem C10_thm (fs : FS) (imgs auds : List String) (d : Nat)
    (h : auds.length < imgs.length) :
    (create_video MediaEnv.ok fs imgs auds d).result = .ok output_path_const ∧
    ∃ v : VideoFile,
      (create_video MediaEnv.ok fs imgs auds d).fs.readFile output_path_const =
        some (.video v) ∧
      v.clips.length = imgs.length ∧
      v.duration = imgs.length * d ∧
      v.clips.map (fun c => c.audioTrack.isSome) =
        List.replicate auds.length true ++
          List.replicate (imgs.length - auds.length) false := by
  have hne : imgs ≠ [] := by
    intro hn
    subst hn
    simp at h
  refine ⟨?_, okVideo imgs auds d, ?_, okVideo_clips_length imgs auds d,
    okVideo_duration imgs auds d, ?_⟩
  · rw [create_video_ok fs imgs auds d hne]
  · rw [create_video_ok fs imgs auds d hne]
    dsimp only
    rw [FS.readFile_writeFile, if_pos rfl]
    rfl
  · have hnone : ∀ c ∈ imgs.map
        (fun p => ({ path := p, duration := d, audioTrack := none } : ImageClipData)),
        c.audioTrack = none := by
      intro c hc
      obtain ⟨p, -, hp⟩ := List.mem_map.mp hc
      rw [← hp]
    rw [okVideo]
    dsimp only
    rw [attachClips_map_audioFlag d _ auds hnone, List.length_map]
    have hmin : min imgs.length auds.length = auds.length := by omega
    rw [hmin]

/-- Witness for C10: two images, one audio clip. -/
theorem C10_witness :
    (["a0"].length < ["i0", "i1"].length) ∧
    (create_video MediaEnv.ok FS.empty ["i0", "i1"] ["a0"] 5).result = .ok output_path_const ∧
    ∃ v : VideoFile,
      (create_video MediaEnv.ok FS.empty ["i0", "i1"] ["a0"] 5).fs.readFile output_path_const =
        some (.video v) ∧
      v.clips.length = 2 ∧ v.duration = 2 * 5 ∧
      v.clips.map (fun c => c.audioTrack.isSome) =
        List.replicate 1 true ++ List.replicate 1 false :=
  ⟨by decide, (C10_thm FS.empty ["i0", "i1"] ["a0"] 5 (by decide)).1,
    ((C10_thm FS.empty ["i0", "i1"] ["a0"] 5 (by decide)).2).elim
      (fun v hv => ⟨v, hv.1, hv.2.1, hv.2.2.1, hv.2.2.2⟩)⟩

end AudImgSync
